import Mathlib

/-!
Verification of the startpageapi client against its specification.

The definitions below are a shallow embedding of `src/startpageapi`:
`endpoints.py` (parameter tables), `client.py` (`_build_search_params`,
`_make_request` error mapping, the per-category search methods,
`instant_answers`), and `parser.py` (`_normalize_url`,
`parse_search_results` dispatch, `parse_suggestions`).

Conventions of the embedding:
- Python strings are `String`; `str.strip()` is `pyStrip` (the ASCII
  whitespace characters stripped by Python).
- Python dicts used as ordered parameter sets are association lists
  `List (String × String)`; `dict.update` is a fold of `setParam`
  (replace in place or append).
- Python `int` is `Int`; `str(n)` is `toString`.
- Fallible code returns `Except SPError _`.
- Network and HTML parsing (urllib, BeautifulSoup) are external: the
  transport result is an abstract `RequestOutcome`, and DOM contents
  reaching `parse_suggestions` are an abstract encounter-ordered list of
  candidate elements.
-/

/-- Python ASCII whitespace as stripped by `str.strip()`. -/
def isPySpace (c : Char) : Bool :=
  c == '\x20' || c == '\t' || c == '\n' || c == '\r' || c == '\x0b' || c == '\x0c'

/-- Strip `isPySpace` characters from both ends of a character list. -/
def stripChars (l : List Char) : List Char :=
  ((l.dropWhile isPySpace).reverse.dropWhile isPySpace).reverse

/-- Python `s.strip()`. -/
def pyStrip (s : String) : String :=
  String.mk (stripChars s.data)

/-- `isPrefixChars n h` holds when `n` is a leading segment of `h`
(Python `h.startswith(n)` on character lists). -/
def isPrefixChars : List Char → List Char → Bool
  | [], _ => true
  | _ :: _, [] => false
  | a :: as, b :: bs => a == b && isPrefixChars as bs

/-- `isSubChars n h` is Python `n in h`: `n` occurs contiguously in `h`. -/
def isSubChars : List Char → List Char → Bool
  | n, [] => isPrefixChars n []
  | n, c :: t => isPrefixChars n (c :: t) || isSubChars n t

/-- Python substring test `a in b` on strings. -/
def strIn (a b : String) : Bool :=
  isSubChars a.data b.data

/-- Python `a or b` where `a` is an optional string attribute and `b` the
fallback: the first truthy (present and non-empty) value wins. -/
def pyOrOpt (a : Option String) (b : String) : String :=
  match a with
  | some s => if s = "" then b else s
  | none => b

/-- Look up `k` in an association-list table with default `d`
(Python `tbl.get(k, d)`). -/
def lookupD (tbl : List (String × String)) (k d : String) : String :=
  match tbl.find? (fun kv => kv.1 == k) with
  | some kv => kv.2
  | none => d

/-- First value stored under key `k`, if any (`endpoints.py` tables and
built parameter sets are keyed association lists). -/
def getParam (ps : List (String × String)) (k : String) : Option String :=
  (ps.find? (fun kv => kv.1 == k)).map (fun kv => kv.2)

/-- Python `d[k] = v` on an ordered dict modelled as an association list:
replace the value in place if the key exists, else append the pair. -/
def setParam (ps : List (String × String)) (k v : String) : List (String × String) :=
  if ps.any (fun kv => kv.1 == k) then
    ps.map (fun kv => if kv.1 == k then (k, v) else kv)
  else
    ps ++ [(k, v)]

/-- `params.update(kwargs)` applied left to right. -/
def updateParams (ps kwargs : List (String × String)) : List (String × String) :=
  kwargs.foldl (fun acc kv => setParam acc kv.1 kv.2) ps

/-- `LANGUAGE_CODES` from endpoints.py. -/
def LANGUAGE_CODES : List (String × String) :=
  [("english", "en"), ("german", "de"), ("french", "fr"), ("spanish", "es"),
   ("italian", "it"), ("dutch", "nl"), ("portuguese", "pt"), ("russian", "ru"),
   ("chinese", "zh"), ("japanese", "ja")]

/-- `REGION_CODES` from endpoints.py. -/
def REGION_CODES : List (String × String) :=
  [("all", "all"), ("us", "us"), ("uk", "uk"), ("ca", "ca"), ("au", "au"),
   ("de", "de"), ("fr", "fr"), ("es", "es"), ("it", "it"), ("nl", "nl")]

/-- `SAFE_SEARCH_LEVELS` from endpoints.py. -/
def SAFE_SEARCH_LEVELS : List (String × String) :=
  [("strict", "1"), ("moderate", "0"), ("off", "2")]

/-- `TIME_FILTERS` from endpoints.py. -/
def TIME_FILTERS : List (String × String) :=
  [("any", ""), ("day", "d"), ("week", "w"), ("month", "m"), ("year", "y")]

/-- `IMAGE_SIZES` from endpoints.py. -/
def IMAGE_SIZES : List (String × String) :=
  [("any", ""), ("small", "s"), ("medium", "m"), ("large", "l"), ("wallpaper", "w")]

/-- `VIDEO_DURATIONS` from endpoints.py. -/
def VIDEO_DURATIONS : List (String × String) :=
  [("any", ""), ("short", "s"), ("medium", "m"), ("long", "l")]

/-- `ADVANCED_SEARCH_PARAMS` from endpoints.py. -/
def ADVANCED_SEARCH_PARAMS : List (String × String) :=
  [("search_source", "sc"), ("search_results", "sr"),
   ("search_expander_api_path", "sxap"),
   ("query_instant_mode_search_number", "qimsn"),
   ("time_filter", "with_date"), ("ad_block_plus", "abp"),
   ("search_type_modifier", "t")]

/-- Modelled from the spec: the error taxonomy of spec §7 for the
exception classes of `startpageapi/exceptions.py`, a file whose source is
not included under `src/` (only its import sites are). `invalidRequest`
stands for the builtin `ValueError` raised on empty queries (spec name
InvalidRequest); `rateLimitError` is `StartpageRateLimitError`;
`httpError` is `StartpageHTTPError` carrying the status code;
`parseError` is `StartpageParseError`; `startpageError` is the base
`StartpageError`, which client.py raises for both network failures and
unexpected transport failures, distinguished only by message. -/
inductive SPError where
  | invalidRequest (msg : String)
  | rateLimitError (msg : String)
  | httpError (code : Nat) (msg : String)
  | parseError (msg : String)
  | startpageError (msg : String)
deriving DecidableEq, Repr

/-- `StartpageAPI._build_search_params`, the part after the empty-query
check and before the final `params.update(kwargs)`: the base parameter
dict followed by the category-gated filters, in insertion order. -/
def build_search_params_base (query category language region : String)
    (page results_per_page : Int)
    (safe_search time_filter size duration : Option String)
    (latitude longitude : Option String) (radius : Option Int) :
    List (String × String) :=
  let base : List (String × String) :=
    [("query", pyStrip query),
     ("cat", category),
     ("cmd", "process_search"),
     ("language", lookupD LANGUAGE_CODES language language),
     ("lui", lookupD LANGUAGE_CODES language language),
     ("pl", lookupD REGION_CODES region region),
     ("startat", toString ((page - 1) * results_per_page))]
  let ff :=
    match safe_search with
    | some s =>
        if s ≠ "" ∧ category ≠ "news" ∧ category ≠ "places" then
          [("ff", lookupD SAFE_SEARCH_LEVELS s "0")]
        else []
    | none => []
  let num := if category = "web" then [("num", toString results_per_page)] else []
  let withDate :=
    match time_filter with
    | some t =>
        if t ≠ "" ∧ t ≠ "any" ∧ (category = "web" ∨ category = "video" ∨ category = "news") then
          [("with_date", lookupD TIME_FILTERS t t)]
        else []
    | none => []
  let sz :=
    match size with
    | some s =>
        if s ≠ "" ∧ s ≠ "any" ∧ category = "images" then
          [("size", lookupD IMAGE_SIZES s s)]
        else []
    | none => []
  let dur :=
    match duration with
    | some d =>
        if d ≠ "" ∧ d ≠ "any" ∧ category = "video" then
          [("duration", lookupD VIDEO_DURATIONS d d)]
        else []
    | none => []
  let geo :=
    match latitude, longitude with
    | some la, some lo =>
        if category = "places" then [("latitude", la), ("longitude", lo)] else []
    | _, _ => []
  let rad :=
    match radius with
    | some r => if category = "places" then [("radius", toString r)] else []
    | none => []
  base ++ ff ++ num ++ withDate ++ sz ++ dur ++ geo ++ rad

/-- `StartpageAPI._build_search_params` after the empty-query check:
the base dict with the filters, then `params.update(kwargs)` last. -/
def build_search_params_core (query category language region : String)
    (page results_per_page : Int)
    (safe_search time_filter size duration : Option String)
    (latitude longitude : Option String) (radius : Option Int)
    (kwargs : List (String × String)) : List (String × String) :=
  updateParams
    (build_search_params_base query category language region page
      results_per_page safe_search time_filter size duration latitude
      longitude radius)
    kwargs

/-- `StartpageAPI._build_search_params`: raises `ValueError` when the
query is empty after stripping, otherwise returns the parameter dict.
`latitude`/`longitude` carry the decimal rendering of the Python floats
(the rendering itself is not modelled; only presence and pass-through of
the values matter to the client logic). -/
def build_search_params (query category language region : String)
    (page results_per_page : Int)
    (safe_search time_filter size duration : Option String)
    (latitude longitude : Option String) (radius : Option Int)
    (kwargs : List (String × String)) : Except SPError (List (String × String)) :=
  if pyStrip query = "" then
    Except.error (SPError.invalidRequest "Query cannot be empty.")
  else
    Except.ok (build_search_params_core query category language region page
      results_per_page safe_search time_filter size duration latitude longitude
      radius kwargs)

/-- Key lookup through the `Except` wrapper of a build result. -/
def getParamE (r : Except SPError (List (String × String))) (k : String) : Option String :=
  match r with
  | Except.ok ps => getParam ps k
  | Except.error _ => none

/-- `StartpageAPI.search`: the request-construction phase (validation and
parameter building; the network send consumes the built parameters, so an
`Except.error` means no request is ever issued). -/
def search_build (query language region safe_search time_filter : String)
    (page results_per_page : Int) (kwargs : List (String × String)) :
    Except SPError (List (String × String)) :=
  build_search_params query "web" language region page results_per_page
    (some safe_search) (some time_filter) none none none none none kwargs

/-- `StartpageAPI.images_search`: passes the Startpage internal category
`"pics"` together with the `size` filter to the builder. -/
def images_search_build (query language region safe_search size : String)
    (page results_per_page : Int) (kwargs : List (String × String)) :
    Except SPError (List (String × String)) :=
  build_search_params query "pics" language region page results_per_page
    (some safe_search) none (some size) none none none none kwargs

/-- `StartpageAPI.videos_search`: internal category `"video"` with
`duration` and `time_filter`. -/
def videos_search_build (query language region safe_search duration time_filter : String)
    (page results_per_page : Int) (kwargs : List (String × String)) :
    Except SPError (List (String × String)) :=
  build_search_params query "video" language region page results_per_page
    (some safe_search) (some time_filter) none (some duration) none none none kwargs

/-- `StartpageAPI.news_search`: internal category `"news"`, no safe
search. -/
def news_search_build (query language region time_filter : String)
    (page results_per_page : Int) (kwargs : List (String × String)) :
    Except SPError (List (String × String)) :=
  build_search_params query "news" language region page results_per_page
    none (some time_filter) none none none none none kwargs

/-- `StartpageAPI.places_search`: passes the Startpage internal category
`"map"` together with the geo parameters to the builder. -/
def places_search_build (query language region : String)
    (latitude longitude : Option String) (radius : Option Int)
    (page results_per_page : Int) (kwargs : List (String × String)) :
    Except SPError (List (String × String)) :=
  build_search_params query "map" language region page results_per_page
    none none none none latitude longitude radius kwargs

/-- `StartpageAPI.advanced_search`: own empty-query check, then remaps
the caller options through `ADVANCED_SEARCH_PARAMS` (unknown keys that do
not name an existing base parameter are silently dropped), pops query and
category, and delegates to the common search path with web defaults. -/
def advanced_search_build (query : String) (kwargs : List (String × String)) :
    Except SPError (List (String × String)) :=
  if pyStrip query = "" then
    Except.error (SPError.invalidRequest "Query cannot be empty for advanced search.")
  else
    let base : List (String × String) :=
      [("query", pyStrip query), ("cat", "web"), ("cmd", "process_search")]
    let params := kwargs.foldl (fun acc kv =>
      match getParam ADVANCED_SEARCH_PARAMS kv.1 with
      | some sp => setParam acc sp kv.2
      | none =>
          if acc.any (fun p => p.1 == kv.1) then setParam acc kv.1 kv.2 else acc) base
    let rest := params.filter (fun p => !(p.1 == "query") && !(p.1 == "cat"))
    build_search_params ((getParam params "query").getD "")
      ((getParam params "cat").getD "") "en" "all" 1 10 (some "moderate")
      none none none none none none rest

/-- The knowledge-panel dict assembled by `instant_answers` helpers:
title, description, facts mapping, source tag. -/
structure KnowledgePanel where
  title : String
  description : String
  facts : List (String × String)
  source : String
deriving DecidableEq, Repr

/-- Outcome of the pre-network part of `instant_answers`: either the
early-returned bundle or the parameter set of the web request it would
send. -/
inductive IAFront where
  | bundle (instant_answer : Option String) (knowledge_panel : Option KnowledgePanel)
  | request (params : List (String × String))
deriving DecidableEq, Repr

/-- `StartpageAPI.instant_answers`, up to the network call: on a query
that is empty after stripping it returns the empty bundle (despite the
docstring declaring ValueError); otherwise it assembles the web search
parameters which the request then consumes. The `Except` result covers
the raise that the docstring declares; this path never errors. -/
def instant_answers_front (query language : String)
    (kwargs : List (String × String)) : Except SPError IAFront :=
  if pyStrip query = "" then
    Except.ok (IAFront.bundle none none)
  else
    let ps : List (String × String) :=
      [("query", pyStrip query),
       ("cat", "web"),
       ("cmd", "process_search"),
       ("language", lookupD LANGUAGE_CODES language language),
       ("lui", lookupD LANGUAGE_CODES language language)]
    Except.ok (IAFront.request (updateParams ps kwargs))

/-- The near-duplicate suppression step at the end of
`instant_answers`: when a detected instant answer and a detected
knowledge-panel description are in substring relation, the panel wins if
it has a title, else the instant answer wins. -/
def instant_answer_dedupe (instant_answer : Option String)
    (knowledge_panel : Option KnowledgePanel) :
    Option String × Option KnowledgePanel :=
  match instant_answer, knowledge_panel with
  | some a, some p =>
      if a ≠ "" ∧ p.description ≠ "" then
        if strIn a p.description || strIn p.description a then
          if p.title ≠ "" then (none, some p) else (some a, none)
        else (some a, some p)
      else (some a, some p)
  | ia, kp => (ia, kp)

/-- Abstract outcome of the underlying urllib call inside
`_make_request`: a body, an `HTTPError` with a status code (urllib raises
it exactly for non-2xx responses), a `URLError` (connection, DNS or
timeout failure), or any other unexpected exception. -/
inductive RequestOutcome where
  | success (body : String)
  | httpFailure (code : Nat) (reason : String)
  | urlFailure (reason : String)
  | unexpectedFailure (msg : String)
deriving DecidableEq, Repr

/-- The error mapping of `StartpageAPI._make_request`: 429 becomes the
rate-limit error, other HTTP failures the HTTP error carrying the code,
`URLError` the network-message base error, anything else the generic
base error. One outcome maps to exactly one result; nothing is retried. -/
def make_request_result : RequestOutcome → Except SPError String
  | RequestOutcome.success body => Except.ok body
  | RequestOutcome.httpFailure code reason =>
      if code = 429 then
        Except.error (SPError.rateLimitError
          ("Rate limit exceeded: " ++ toString code ++ " " ++ reason))
      else
        Except.error (SPError.httpError code
          ("HTTP error: " ++ toString code ++ " " ++ reason))
  | RequestOutcome.urlFailure reason =>
      Except.error (SPError.startpageError ("Network error: " ++ reason))
  | RequestOutcome.unexpectedFailure msg =>
      Except.error (SPError.startpageError
        ("Request failed due to an unexpected error: " ++ msg))

/-- The page dict produced by each `_parse_*_results` method: record
dicts plus pagination metadata. -/
structure ResultPage where
  results : List (List (String × String))
  total_results : Int
  has_next_page : Bool
deriving DecidableEq, Repr

/-- A Python exception as seen by the `except` clause of
`parse_search_results`: its type name and its `str(e)` text. -/
structure PyExc where
  typeName : String
  msg : String
deriving DecidableEq, Repr

/-- The category keys known to `parse_search_results`. -/
def KNOWN_SEARCH_TYPES : List String := ["web", "images", "videos", "news", "places"]

/-- `StartpageParser.parse_search_results`: rejects empty HTML, then
dispatches on the category. The five per-category parsers (BeautifulSoup
traversals) are the abstract `inner` argument; any exception they raise,
and the unknown-category `StartpageParseError` raised inside the `try`,
is wrapped into a `StartpageParseError` carrying only the cause's type
name and description. -/
def parse_search_results (inner : String → String → Except PyExc ResultPage)
    (html search_type : String) : Except SPError ResultPage :=
  if html = "" then
    Except.error (SPError.parseError "Cannot parse empty HTML content.")
  else if search_type ∈ KNOWN_SEARCH_TYPES then
    match inner search_type html with
    | Except.ok page => Except.ok page
    | Except.error e =>
        Except.error (SPError.parseError
          ("Failed to parse \x27" ++ search_type ++ "\x27 results due to "
            ++ e.typeName ++ ": " ++ e.msg))
  else
    Except.error (SPError.parseError
      ("Failed to parse \x27" ++ search_type ++ "\x27 results due to "
        ++ "StartpageParseError: Unknown search type for parsing: " ++ search_type))

/-- JSON values as produced by `json.loads` (floating-point numbers are
not modelled; the suggestion path only stringifies scalars). -/
inductive JVal where
  | jnull
  | jbool (b : Bool)
  | jint (n : Int)
  | jstr (s : String)
  | jarr (items : List JVal)
  | jobj (fields : List (String × JVal))

/-- `str(s)` for the scalars kept by the suggestion list comprehension
(`isinstance(s, (str, int, float))`; Python bools are ints). -/
def pyScalarStr : JVal → Option String
  | JVal.jstr s => some s
  | JVal.jint n => some (toString n)
  | JVal.jbool b => some (if b then "True" else "False")
  | _ => none

/-- A DOM element candidate reaching the suggestion fallback scan: its
`value` attribute, its `data-suggestion` attribute, and its extracted
text. -/
structure SElem where
  value : Option String
  dataSuggestion : Option String
  text : String
deriving DecidableEq, Repr

/-- One iteration of the DOM-scan loop of `parse_suggestions`: pick the
first truthy of value / data-suggestion / text, strip it, and append it
if non-empty and not already collected. -/
def suggestion_scan_step (acc : List String) (e : SElem) : List String :=
  let t := pyOrOpt e.value (pyOrOpt e.dataSuggestion e.text)
  let ts := pyStrip t
  if t ≠ "" ∧ ts ≠ "" ∧ ts ∉ acc then acc ++ [ts] else acc

/-- The DOM-scan fallback path of `parse_suggestions`, capped at 10. -/
def dom_scan_suggestions (elems : List SElem) : List String :=
  (elems.foldl suggestion_scan_step []).take 10

/-- `StartpageParser.parse_suggestions`: if the response parsed as JSON
into a list of length > 1 whose second element is a list, stringify its
scalars and cap at 10; otherwise fall back to the DOM scan over the
suggestion-styled elements found in the markup. -/
def parse_suggestions (jsonData : Option JVal) (elems : List SElem) : List String :=
  match jsonData with
  | some (JVal.jarr items) =>
      match items.get? 1 with
      | some (JVal.jarr ys) => (ys.filterMap pyScalarStr).take 10
      | _ => dom_scan_suggestions elems
  | _ => dom_scan_suggestions elems

/-- `_STARTPAGE_BASE_URL` from parser.py. -/
def STARTPAGE_BASE_URL : String := "https://www.startpage.com"

/-- `StartpageParser._normalize_url` on character lists: empty input
stays empty; otherwise strip, then prepend `https:` to
protocol-relative URLs, join root-relative URLs to the base (avoiding a
double slash when the base ends in one), and pass everything else
through. -/
def normalize_url_chars (url : List Char) (base_url : List Char) : List Char :=
  if url = [] then []
  else
    let u := stripChars url
    if isPrefixChars ['/', '/'] u then
      'h' :: 't' :: 't' :: 'p' :: 's' :: ':' :: u
    else if isPrefixChars ['/'] u then
      match base_url.getLast? with
      | some '/' => base_url ++ u.drop 1
      | _ => base_url ++ u
    else u

/-- `StartpageParser._normalize_url` at the default base URL (a `None`
input behaves as the empty string). -/
def normalize_url (url : String) : String :=
  String.mk (normalize_url_chars url.data STARTPAGE_BASE_URL.data)

/-! ### Helper lemmas about dropWhile, stripping and association lists -/

lemma dropWhile_cons_of_false {α : Type} {p : α → Bool} {a : α} {l : List α}
    (h : p a = false) : (a :: l).dropWhile p = a :: l := by
  simp [List.dropWhile, h]

lemma dropWhile_head_false {α : Type} {p : α → Bool} :
    ∀ {l : List α} {a : α} {t : List α}, l.dropWhile p = a :: t → p a = false := by
  intro l
  induction l with
  | nil => intro a t h; simp at h
  | cons b l ih =>
      intro a t h
      rw [List.dropWhile_cons] at h
      by_cases hb : p b = true
      · rw [if_pos hb] at h
        exact ih h
      · rw [if_neg hb] at h
        injection h with hba hlt
        rw [← hba]
        simpa using hb

lemma dropWhile_dropWhile {α : Type} {p : α → Bool} {l : List α} :
    (l.dropWhile p).dropWhile p = l.dropWhile p := by
  cases hd : l.dropWhile p with
  | nil => simp
  | cons a t => exact dropWhile_cons_of_false (dropWhile_head_false hd)

lemma stripChars_front (l : List Char) :
    (stripChars l).dropWhile isPySpace = stripChars l := by
  unfold stripChars
  cases hw : ((l.dropWhile isPySpace).reverse.dropWhile isPySpace).reverse with
  | nil => simp
  | cons a t =>
      have hm : l.dropWhile isPySpace
          = ((l.dropWhile isPySpace).reverse.dropWhile isPySpace).reverse
            ++ ((l.dropWhile isPySpace).reverse.takeWhile isPySpace).reverse := by
        conv_lhs =>
          rw [← List.reverse_reverse (l.dropWhile isPySpace),
            ← List.takeWhile_append_dropWhile isPySpace (l.dropWhile isPySpace).reverse]
        rw [List.reverse_append]
      rw [hw] at hm
      rw [List.cons_append] at hm
      exact dropWhile_cons_of_false (dropWhile_head_false hm)

lemma stripChars_back (l : List Char) :
    (stripChars l).reverse.dropWhile isPySpace = (stripChars l).reverse := by
  unfold stripChars
  rw [List.reverse_reverse]
  exact dropWhile_dropWhile

lemma stripChars_idem (l : List Char) : stripChars (stripChars l) = stripChars l := by
  show (((stripChars l).dropWhile isPySpace).reverse.dropWhile isPySpace).reverse
      = stripChars l
  rw [stripChars_front, stripChars_back, List.reverse_reverse]

lemma stripChars_of_clean {l : List Char}
    (h1 : l.dropWhile isPySpace = l)
    (h2 : l.reverse.dropWhile isPySpace = l.reverse) :
    stripChars l = l := by
  show ((l.dropWhile isPySpace).reverse.dropWhile isPySpace).reverse = l
  rw [h1, h2, List.reverse_reverse]

lemma isPrefixChars_cons_elim {a : Char} {n l : List Char}
    (h : isPrefixChars (a :: n) l = true) :
    ∃ t, l = a :: t ∧ isPrefixChars n t = true := by
  cases l with
  | nil => simp [isPrefixChars] at h
  | cons b t =>
      simp only [isPrefixChars, Bool.and_eq_true, beq_iff_eq] at h
      exact ⟨t, by rw [h.1], h.2⟩

lemma isPrefixChars_cons_head_false {a c : Char} {n rest : List Char}
    (h : (a == c) = false) : isPrefixChars (a :: n) (c :: rest) = false := by
  simp [isPrefixChars, h]

lemma isPrefixChars_append_false {n : List Char} :
    ∀ {l : List Char} (v : List Char), n.length ≤ l.length →
      isPrefixChars n l = false → isPrefixChars n (l ++ v) = false := by
  induction n with
  | nil => intro l v _ h; simp [isPrefixChars] at h
  | cons a as ih =>
      intro l v hlen h
      cases l with
      | nil => simp at hlen
      | cons b t =>
          rw [List.cons_append]
          simp only [isPrefixChars] at h ⊢
          cases hab : (a == b) with
          | false => simp
          | true =>
              rw [hab] at h
              simp only [Bool.true_and] at h ⊢
              exact ih v (by simpa using hlen) h

lemma back_clean_append {X u : List Char} {a : Char} {t : List Char}
    (hv : (stripChars u).reverse = a :: t) :
    (X ++ stripChars u).reverse.dropWhile isPySpace = (X ++ stripChars u).reverse := by
  have hpa : isPySpace a = false := by
    have hb := stripChars_back u
    rw [hv] at hb
    exact dropWhile_head_false hb
  rw [List.reverse_append, hv, List.cons_append]
  exact dropWhile_cons_of_false hpa

lemma getParam_map_replace {k q v : String} (h : k ≠ q) :
    ∀ {ps : List (String × String)},
      getParam (ps.map (fun kv => if kv.1 == k then (k, v) else kv)) q = getParam ps q := by
  intro ps
  induction ps with
  | nil => rfl
  | cons a ps ih =>
      by_cases hak : a.1 = k
      · have h1 : (a.1 == k) = true := by simp [hak]
        have h2 : ((k : String) == q) = false := by simp [h]
        have h3 : (a.1 == q) = false := by simp [hak, h]
        unfold getParam
        rw [List.map_cons, if_pos h1, List.find?_cons_of_neg _ (by simp [h2]),
          List.find?_cons_of_neg _ (by simp [h3])]
        exact ih
      · have h1 : (a.1 == k) = false := by simp [hak]
        unfold getParam
        rw [List.map_cons, if_neg (by simp [h1])]
        by_cases haq : a.1 = q
        · rw [List.find?_cons_of_pos _ (by simp [haq]),
            List.find?_cons_of_pos _ (by simp [haq])]
        · rw [List.find?_cons_of_neg _ (by simp [haq]),
            List.find?_cons_of_neg _ (by simp [haq])]
          exact ih

lemma getParam_append_single_ne {k q v : String} (h : k ≠ q) :
    ∀ {ps : List (String × String)}, getParam (ps ++ [(k, v)]) q = getParam ps q := by
  intro ps
  induction ps with
  | nil =>
      unfold getParam
      rw [List.nil_append, List.find?_cons_of_neg _ (by simp [h])]
  | cons a ps ih =>
      unfold getParam
      rw [List.cons_append]
      by_cases haq : a.1 = q
      · rw [List.find?_cons_of_pos _ (by simp [haq]),
          List.find?_cons_of_pos _ (by simp [haq])]
      · rw [List.find?_cons_of_neg _ (by simp [haq]),
          List.find?_cons_of_neg _ (by simp [haq])]
        exact ih

lemma getParam_setParam_ne {ps : List (String × String)} {k q v : String} (h : k ≠ q) :
    getParam (setParam ps k v) q = getParam ps q := by
  unfold setParam
  by_cases hmem : ps.any (fun kv => kv.1 == k)
  · rw [if_pos hmem]
    exact getParam_map_replace h
  · rw [if_neg hmem]
    exact getParam_append_single_ne h

lemma getParam_updateParams {q : String} :
    ∀ {kwargs ps : List (String × String)}, (∀ kv ∈ kwargs, kv.1 ≠ q) →
      getParam (updateParams ps kwargs) q = getParam ps q := by
  intro kwargs
  induction kwargs with
  | nil => intro ps _; rfl
  | cons a kw ih =>
      intro ps h
      show getParam (updateParams (setParam ps a.1 a.2) kw) q = getParam ps q
      rw [ih (fun kv hkv => h kv (List.mem_cons_of_mem _ hkv)),
        getParam_setParam_ne (h a (List.mem_cons_self _ _))]

lemma suggestion_scan_step_nodup {acc : List String} {e : SElem} (h : acc.Nodup) :
    (suggestion_scan_step acc e).Nodup := by
  dsimp only [suggestion_scan_step]
  split
  · next hcond =>
      rw [List.nodup_append]
      exact ⟨h, List.nodup_singleton _, by simpa using fun hm => hcond.2.2 hm⟩
  · exact h

lemma foldl_scan_nodup :
    ∀ (elems : List SElem) (acc : List String), acc.Nodup →
      (elems.foldl suggestion_scan_step acc).Nodup := by
  intro elems
  induction elems with
  | nil => intro acc h; exact h
  | cons e es ih => intro acc h; exact ih _ (suggestion_scan_step_nodup h)

lemma reverse_ne_nil_exists {v : List Char} (h : v ≠ []) : ∃ a t, v.reverse = a :: t := by
  cases hr : v.reverse with
  | nil => exact absurd (by simpa using congrArg List.reverse hr) h
  | cons a t => exact ⟨a, t, rfl⟩

lemma not_slash2_https {r : List Char} :
    isPrefixChars ['/', '/'] ('h' :: r) = false :=
  isPrefixChars_cons_head_false (by decide)

lemma not_slash1_https {r : List Char} :
    isPrefixChars ['/'] ('h' :: r) = false :=
  isPrefixChars_cons_head_false (by decide)

lemma normalize_url_chars_pp {u : List Char} (hu : u ≠ [])
    (hpp : isPrefixChars ['/', '/'] (stripChars u) = true) :
    normalize_url_chars u STARTPAGE_BASE_URL.data
      = 'h' :: 't' :: 't' :: 'p' :: 's' :: ':' :: stripChars u := by
  simp only [normalize_url_chars, hu, hpp, if_true, if_false, ite_false, ite_true]

lemma normalize_url_chars_slash {u : List Char} (hu : u ≠ [])
    (hpp : isPrefixChars ['/', '/'] (stripChars u) = false)
    (hp : isPrefixChars ['/'] (stripChars u) = true) :
    normalize_url_chars u STARTPAGE_BASE_URL.data
      = STARTPAGE_BASE_URL.data ++ stripChars u := by
  simp only [normalize_url_chars, hu, hpp, hp, if_true, if_false, ite_false, ite_true,
    Bool.false_eq_true]
  rfl

lemma normalize_url_chars_other {u : List Char} (hu : u ≠ [])
    (hpp : isPrefixChars ['/', '/'] (stripChars u) = false)
    (hp : isPrefixChars ['/'] (stripChars u) = false) :
    normalize_url_chars u STARTPAGE_BASE_URL.data = stripChars u := by
  simp only [normalize_url_chars, hu, hpp, hp, if_true, if_false, ite_false, ite_true,
    Bool.false_eq_true]

lemma stripChars_https_cons {u : List Char} {a : Char} {t : List Char}
    (hv : (stripChars u).reverse = a :: t) :
    stripChars ('h' :: 't' :: 't' :: 'p' :: 's' :: ':' :: stripChars u)
      = 'h' :: 't' :: 't' :: 'p' :: 's' :: ':' :: stripChars u := by
  apply stripChars_of_clean
  · exact dropWhile_cons_of_false (by decide)
  · have h := back_clean_append (X := ['h', 't', 't', 'p', 's', ':']) hv
    simpa using h

lemma stripChars_base_append {u : List Char} {a : Char} {t : List Char}
    (hv : (stripChars u).reverse = a :: t) :
    stripChars (STARTPAGE_BASE_URL.data ++ stripChars u)
      = STARTPAGE_BASE_URL.data ++ stripChars u := by
  apply stripChars_of_clean
  · rw [show STARTPAGE_BASE_URL.data = 'h' :: "ttps://www.startpage.com".data from rfl,
      List.cons_append]
    exact dropWhile_cons_of_false (by decide)
  · exact back_clean_append hv

lemma normalize_url_chars_idem (u : List Char) :
    normalize_url_chars (normalize_url_chars u STARTPAGE_BASE_URL.data)
      STARTPAGE_BASE_URL.data = normalize_url_chars u STARTPAGE_BASE_URL.data := by
  by_cases hu : u = []
  · subst hu; rfl
  · cases hpp : isPrefixChars ['/', '/'] (stripChars u) with
    | true =>
        rw [normalize_url_chars_pp hu hpp]
        obtain ⟨t1, ht1, -⟩ := isPrefixChars_cons_elim hpp
        have hvne : stripChars u ≠ [] := by rw [ht1]; simp
        obtain ⟨a, t, hv⟩ := reverse_ne_nil_exists hvne
        have hstrip := stripChars_https_cons (u := u) hv
        rw [normalize_url_chars_other (by simp) (by rw [hstrip]; exact not_slash2_https)
          (by rw [hstrip]; exact not_slash1_https), hstrip]
    | false =>
        cases hp : isPrefixChars ['/'] (stripChars u) with
        | true =>
            rw [normalize_url_chars_slash hu hpp hp]
            obtain ⟨t1, ht1, -⟩ := isPrefixChars_cons_elim hp
            have hvne : stripChars u ≠ [] := by rw [ht1]; simp
            obtain ⟨a, t, hv⟩ := reverse_ne_nil_exists hvne
            have hstrip := stripChars_base_append (u := u) hv
            have hBcons : STARTPAGE_BASE_URL.data
                = 'h' :: "ttps://www.startpage.com".data := rfl
            have hBne : STARTPAGE_BASE_URL.data ++ stripChars u ≠ [] := by
              rw [hBcons]; simp
            rw [normalize_url_chars_other hBne
              (by rw [hstrip, hBcons, List.cons_append]; exact not_slash2_https)
              (by rw [hstrip, hBcons, List.cons_append]; exact not_slash1_https), hstrip]
        | false =>
            rw [normalize_url_chars_other hu hpp hp]
            by_cases hv : stripChars u = []
            · rw [hv]; rfl
            · rw [normalize_url_chars_other hv (by rw [stripChars_idem]; exact hpp)
                (by rw [stripChars_idem]; exact hp), stripChars_idem]

lemma strip_protocol_relative {s : String}
    (hs : ∀ a, s.data.getLast? = some a → isPySpace a = false) :
    stripChars ('/' :: '/' :: s.data) = '/' :: '/' :: s.data := by
  apply stripChars_of_clean
  · exact dropWhile_cons_of_false (by decide)
  · rw [show ('/' :: '/' :: s.data).reverse = s.data.reverse ++ ['/', '/'] by simp]
    cases hrev : s.data.reverse with
    | nil => rfl
    | cons a t =>
        have hpa : isPySpace a = false :=
          hs a (by rw [← List.head?_reverse, hrev]; rfl)
        exact dropWhile_cons_of_false hpa

lemma strmk_eq {l : List Char} {t : String} (h : l = t.data) : String.mk l = t := by
  cases t
  cases h
  rfl

/-! ### Claim theorems -/

/-- C9 (corrected): for every string `s` whose last character is not
Python whitespace, `normalize_url ("//" ++ s) = "https://" ++ s`; every
stripped URL beginning with a single slash is joined to the base origin;
every stripped URL beginning with `https://` is returned unchanged; and
`normalize_url` is idempotent on every input. The claim as frozen
quantifies the protocol-relative law over every string `s`; it fails for
strings with trailing whitespace because `_normalize_url` strips its
input first (see the counterexample), so the first three parts carry the
no-surrounding-whitespace hypotheses the stripping forces. -/
theorem normalize_url_spec :
    (∀ s : String, (∀ a, s.data.getLast? = some a → isPySpace a = false) →
       normalize_url ("//" ++ s) = "https://" ++ s)
    ∧ (∀ u : String, stripChars u.data = u.data →
         isPrefixChars ['/'] u.data = true → isPrefixChars ['/', '/'] u.data = false →
         normalize_url u = STARTPAGE_BASE_URL ++ u)
    ∧ (∀ u : String, stripChars u.data = u.data →
         isPrefixChars ("https://".data) u.data = true →
         normalize_url u = u)
    ∧ (∀ u : String, normalize_url (normalize_url u) = normalize_url u) := by
  refine ⟨?_, ?_, ?_, ?_⟩
  · intro s hs
    have hdata : ("//" ++ s).data = '/' :: '/' :: s.data := by
      rw [String.data_append]; rfl
    unfold normalize_url
    apply strmk_eq
    rw [hdata,
      normalize_url_chars_pp (by simp)
        (by rw [strip_protocol_relative hs]; simp [isPrefixChars]),
      strip_protocol_relative hs, String.data_append]
    rfl
  · intro u hstrip hp hpp
    have hune : u.data ≠ [] := by
      obtain ⟨t, ht, -⟩ := isPrefixChars_cons_elim hp
      rw [ht]; simp
    unfold normalize_url
    apply strmk_eq
    rw [normalize_url_chars_slash hune (by rw [hstrip]; exact hpp)
      (by rw [hstrip]; exact hp), hstrip, String.data_append]
  · intro u hstrip hpre
    have hpre' : isPrefixChars ('h' :: "ttps://".data) u.data = true := hpre
    obtain ⟨t, ht, -⟩ := isPrefixChars_cons_elim hpre'
    have hune : u.data ≠ [] := by rw [ht]; simp
    unfold normalize_url
    apply strmk_eq
    rw [normalize_url_chars_other hune (by rw [hstrip, ht]; exact not_slash2_https)
      (by rw [hstrip, ht]; exact not_slash1_https), hstrip]
  · intro u
    unfold normalize_url
    apply strmk_eq
    exact normalize_url_chars_idem u.data

/-- Witness for C9: the amended laws evaluated at the spec's own
examples, plus idempotence at an input with surrounding whitespace. -/
theorem normalize_url_spec_witness :
    normalize_url ("//" ++ "x.com/a") = "https://" ++ "x.com/a"
    ∧ normalize_url "/a/b" = STARTPAGE_BASE_URL ++ "/a/b"
    ∧ normalize_url "https://x.com/a" = "https://x.com/a"
    ∧ normalize_url (normalize_url " x ") = normalize_url " x " := by
  refine ⟨normalize_url_spec.1 "x.com/a" ?_,
    normalize_url_spec.2.1 "/a/b" (by decide) (by decide) (by decide),
    normalize_url_spec.2.2.1 "https://x.com/a" (by decide) (by decide),
    normalize_url_spec.2.2.2 " x "⟩
  intro a ha
  rw [show "x.com/a".data.getLast? = some 'a' from rfl] at ha
  injection ha with h
  rw [← h]
  decide

/-- Counterexample for C9 as frozen: at `s = "x "` the claimed law
`normalize_url ("//" ++ s) = "https://" ++ s` fails, because the
function strips the trailing whitespace of its input first. -/
theorem normalize_url_counterexample :
    normalize_url ("//" ++ "x ") ≠ "https://" ++ "x "
    ∧ normalize_url ("//" ++ "x ") = "https://x" := by
  constructor
  · decide
  · decide

/-- C5 (confirmed): the request builder rejects queries that are empty
after stripping with the InvalidRequest (ValueError) error; for every
non-blank query it stores the stripped query under `query` and the
zero-indexed offset `(page - 1) * results_per_page` under `startat`
(stated for extra parameters that do not override those two keys, since
`params.update(kwargs)` runs last by design); and concretely the build
for query `"  cats  "`, page 2, page size 10 yields query `cats` and
offset `10`. -/
theorem build_search_params_spec :
    (∀ (query category language region : String) (page rpp : Int)
       (ss tf sz dur la lo : Option String) (ra : Option Int)
       (kwargs : List (String × String)),
       pyStrip query = "" →
       build_search_params query category language region page rpp ss tf sz dur la lo ra
           kwargs
         = Except.error (SPError.invalidRequest "Query cannot be empty."))
    ∧ (∀ (query category language region : String) (page rpp : Int)
       (ss tf sz dur la lo : Option String) (ra : Option Int)
       (kwargs : List (String × String)),
       pyStrip query ≠ "" →
       (∀ kv ∈ kwargs, kv.1 ≠ "query" ∧ kv.1 ≠ "startat") →
       getParamE (build_search_params query category language region page rpp ss tf sz dur
           la lo ra kwargs) "query" = some (pyStrip query)
       ∧ getParamE (build_search_params query category language region page rpp ss tf sz dur
           la lo ra kwargs) "startat" = some (toString ((page - 1) * rpp)))
    ∧ (getParamE (build_search_params "  cats  " "web" "en" "all" 2 10 (some "moderate")
         (some "any") none none none none none []) "query" = some "cats"
       ∧ getParamE (build_search_params "  cats  " "web" "en" "all" 2 10 (some "moderate")
         (some "any") none none none none none []) "startat" = some "10") := by
  refine ⟨?_, ?_, by decide⟩
  · intro query category language region page rpp ss tf sz dur la lo ra kwargs h
    unfold build_search_params
    rw [if_pos h]
  · intro query category language region page rpp ss tf sz dur la lo ra kwargs h hkw
    unfold build_search_params
    rw [if_neg h]
    constructor
    · show getParam (build_search_params_core query category language region page rpp
          ss tf sz dur la lo ra kwargs) "query" = some (pyStrip query)
      unfold build_search_params_core
      rw [getParam_updateParams (fun kv hkv => (hkw kv hkv).1)]
      rfl
    · show getParam (build_search_params_core query category language region page rpp
          ss tf sz dur la lo ra kwargs) "startat" = some (toString ((page - 1) * rpp))
      unfold build_search_params_core
      rw [getParam_updateParams (fun kv hkv => (hkw kv hkv).2)]
      rfl

/-- Witness for C5: the builder applied at a blank query and at the
spec's concrete example, with a non-conflicting extra parameter. -/
theorem build_search_params_spec_witness :
    build_search_params " " "web" "en" "all" 1 10 none none none none none none none []
      = Except.error (SPError.invalidRequest "Query cannot be empty.")
    ∧ getParamE (build_search_params "  cats  " "news" "en" "all" 2 10 none none none none
        none none none [("extra", "1")]) "query" = some "cats"
    ∧ getParamE (build_search_params "  cats  " "news" "en" "all" 2 10 none none none none
        none none none [("extra", "1")]) "startat" = some "10" :=
  ⟨build_search_params_spec.1 " " "web" "en" "all" 1 10 none none none none none none
      none [] (by decide),
   (build_search_params_spec.2.1 "  cats  " "news" "en" "all" 2 10 none none none none
      none none none [("extra", "1")] (by decide)
      (by intro kv hkv; simp at hkv; subst hkv; exact ⟨by decide, by decide⟩)).1,
   (build_search_params_spec.2.1 "  cats  " "news" "en" "all" 2 10 none none none none
      none none none [("extra", "1")] (by decide)
      (by intro kv hkv; simp at hkv; subst hkv; exact ⟨by decide, by decide⟩)).2⟩

/-- C2 (amended): every query-taking operation except `instant_answers`
fails with the InvalidRequest (ValueError) error when the query is empty
after stripping, before the request parameters exist (so before any
network I/O); `instant_answers` instead short-circuits to the empty
bundle, also without issuing a request. -/
theorem empty_query_short_circuits :
    (∀ (q l r ss tf : String) (p n : Int) (kw : List (String × String)), pyStrip q = "" →
       search_build q l r ss tf p n kw
         = Except.error (SPError.invalidRequest "Query cannot be empty."))
    ∧ (∀ (q l r ss sz : String) (p n : Int) (kw : List (String × String)), pyStrip q = "" →
       images_search_build q l r ss sz p n kw
         = Except.error (SPError.invalidRequest "Query cannot be empty."))
    ∧ (∀ (q l r ss d tf : String) (p n : Int) (kw : List (String × String)), pyStrip q = "" →
       videos_search_build q l r ss d tf p n kw
         = Except.error (SPError.invalidRequest "Query cannot be empty."))
    ∧ (∀ (q l r tf : String) (p n : Int) (kw : List (String × String)), pyStrip q = "" →
       news_search_build q l r tf p n kw
         = Except.error (SPError.invalidRequest "Query cannot be empty."))
    ∧ (∀ (q l r : String) (la lo : Option String) (ra : Option Int) (p n : Int)
         (kw : List (String × String)), pyStrip q = "" →
       places_search_build q l r la lo ra p n kw
         = Except.error (SPError.invalidRequest "Query cannot be empty."))
    ∧ (∀ (q : String) (kw : List (String × String)), pyStrip q = "" →
       advanced_search_build q kw
         = Except.error (SPError.invalidRequest "Query cannot be empty for advanced search."))
    ∧ (∀ (q l : String) (kw : List (String × String)), pyStrip q = "" →
       instant_answers_front q l kw = Except.ok (IAFront.bundle none none)) := by
  refine ⟨?_, ?_, ?_, ?_, ?_, ?_, ?_⟩
  · intro q l r ss tf p n kw h
    unfold search_build build_search_params
    rw [if_pos h]
  · intro q l r ss sz p n kw h
    unfold images_search_build build_search_params
    rw [if_pos h]
  · intro q l r ss d tf p n kw h
    unfold videos_search_build build_search_params
    rw [if_pos h]
  · intro q l r tf p n kw h
    unfold news_search_build build_search_params
    rw [if_pos h]
  · intro q l r la lo ra p n kw h
    unfold places_search_build build_search_params
    rw [if_pos h]
  · intro q kw h
    unfold advanced_search_build
    rw [if_pos h]
  · intro q l kw h
    unfold instant_answers_front
    rw [if_pos h]

/-- Witness for C2: a whitespace query rejected by the search build, an
empty query rejected by the advanced-search build, and the
`instant_answers` short-circuit. -/
theorem empty_query_short_circuits_witness :
    search_build " " "en" "all" "moderate" "any" 1 10 []
      = Except.error (SPError.invalidRequest "Query cannot be empty.")
    ∧ advanced_search_build "" [("time_filter", "d")]
      = Except.error (SPError.invalidRequest "Query cannot be empty for advanced search.")
    ∧ instant_answers_front "  " "en" [] = Except.ok (IAFront.bundle none none) :=
  ⟨empty_query_short_circuits.1 " " "en" "all" "moderate" "any" 1 10 [] (by decide),
   empty_query_short_circuits.2.2.2.2.2.1 "" [("time_filter", "d")] (by decide),
   empty_query_short_circuits.2.2.2.2.2.2 "  " "en" [] (by decide)⟩

/-- Counterexample for C2 as frozen: `instant_answers` with an empty
query does not fail with InvalidRequest — it returns the empty bundle
successfully. -/
theorem instant_answers_empty_query_counterexample :
    instant_answers_front "" "en" [] = Except.ok (IAFront.bundle none none) := rfl

/-- C10 (confirmed): for every query that is empty or whitespace-only,
`instant_answers` returns the bundle with both fields `None` without
raising and without assembling a request (its request parameters are
only built on the other branch), despite the docstring declaring a
ValueError for an empty query. -/
theorem instant_answers_blank_query_empty_bundle :
    ∀ (q language : String) (kwargs : List (String × String)), pyStrip q = "" →
      instant_answers_front q language kwargs = Except.ok (IAFront.bundle none none) := by
  intro q language kwargs h
  unfold instant_answers_front
  rw [if_pos h]

/-- Witness for C10: a whitespace-only query with extra parameters. -/
theorem instant_answers_blank_query_empty_bundle_witness :
    instant_answers_front "   " "de" [("abc", "1")] = Except.ok (IAFront.bundle none none) :=
  instant_answers_blank_query_empty_bundle "   " "de" [("abc", "1")] (by decide)

/-- C1 (code bug): `images_search` passes the internal category string
`"pics"` and `places_search` passes `"map"`, while the builder gates the
size filter on `category == "images"` and the geo parameters on
`category == "places"` — so an images search with `size="small"` sends
no `size` parameter and a places search with latitude, longitude and
radius sends none of them. The last two conjuncts show the gates do fire
for the category names the builder compares against, which the search
methods never pass: the filter logic is dead code for real calls. -/
theorem category_mismatch_filters_dropped :
    getParamE (images_search_build "cats" "en" "all" "moderate" "small" 1 20 []) "size" = none
    ∧ getParamE (places_search_build "pizza" "en" "all" (some "48.85") (some "2.35")
        (some 1000) 1 10 []) "latitude" = none
    ∧ getParamE (places_search_build "pizza" "en" "all" (some "48.85") (some "2.35")
        (some 1000) 1 10 []) "longitude" = none
    ∧ getParamE (places_search_build "pizza" "en" "all" (some "48.85") (some "2.35")
        (some 1000) 1 10 []) "radius" = none
    ∧ getParamE (build_search_params "cats" "images" "en" "all" 1 20 (some "moderate")
        none (some "small") none none none none []) "size" = some "s"
    ∧ getParamE (build_search_params "pizza" "places" "en" "all" 1 10 none none none none
        (some "48.85") (some "2.35") (some 1000) []) "latitude" = some "48.85" := by
  refine ⟨?_, ?_, ?_, ?_, ?_, ?_⟩ <;> decide

/-- C3 (amended): the language, region, time-filter, image-size and
video-duration tables default to pass-through (an unknown key looks up
to itself, exactly as the builder calls them with the key as default),
but the safe-search lookup defaults to `"0"` (moderate), not to the
caller-supplied string. -/
theorem lookup_tables_defaults :
    (∀ k, LANGUAGE_CODES.find? (fun kv => kv.1 == k) = none → lookupD LANGUAGE_CODES k k = k)
    ∧ (∀ k, REGION_CODES.find? (fun kv => kv.1 == k) = none → lookupD REGION_CODES k k = k)
    ∧ (∀ k, TIME_FILTERS.find? (fun kv => kv.1 == k) = none → lookupD TIME_FILTERS k k = k)
    ∧ (∀ k, IMAGE_SIZES.find? (fun kv => kv.1 == k) = none → lookupD IMAGE_SIZES k k = k)
    ∧ (∀ k, VIDEO_DURATIONS.find? (fun kv => kv.1 == k) = none →
        lookupD VIDEO_DURATIONS k k = k)
    ∧ (∀ k, SAFE_SEARCH_LEVELS.find? (fun kv => kv.1 == k) = none →
        lookupD SAFE_SEARCH_LEVELS k "0" = "0") := by
  refine ⟨?_, ?_, ?_, ?_, ?_, ?_⟩ <;> intro k h <;> unfold lookupD <;> rw [h]

/-- Witness for C3: each table looked up at a key it does not contain. -/
theorem lookup_tables_defaults_witness :
    lookupD LANGUAGE_CODES "klingon" "klingon" = "klingon"
    ∧ lookupD REGION_CODES "atlantis" "atlantis" = "atlantis"
    ∧ lookupD TIME_FILTERS "fortnight" "fortnight" = "fortnight"
    ∧ lookupD IMAGE_SIZES "gigantic" "gigantic" = "gigantic"
    ∧ lookupD VIDEO_DURATIONS "epic" "epic" = "epic"
    ∧ lookupD SAFE_SEARCH_LEVELS "bananas" "0" = "0" :=
  ⟨lookup_tables_defaults.1 "klingon" (by decide),
   lookup_tables_defaults.2.1 "atlantis" (by decide),
   lookup_tables_defaults.2.2.1 "fortnight" (by decide),
   lookup_tables_defaults.2.2.2.1 "gigantic" (by decide),
   lookup_tables_defaults.2.2.2.2.1 "epic" (by decide),
   lookup_tables_defaults.2.2.2.2.2 "bananas" (by decide)⟩

/-- Counterexample for C3 as frozen: with the unknown safe-search level
`"bananas"` the `ff` value sent upstream is `"0"`, not the
caller-supplied string. -/
theorem safe_search_lookup_counterexample :
    getParamE (build_search_params "cats" "web" "en" "all" 1 10 (some "bananas") none none
      none none none none []) "ff" = some "0"
    ∧ getParamE (build_search_params "cats" "web" "en" "all" 1 10 (some "bananas") none none
      none none none none []) "ff" ≠ some "bananas" := by
  constructor <;> decide

lemma dom_scan_suggestions_length (elems : List SElem) :
    (dom_scan_suggestions elems).length ≤ 10 := by
  unfold dom_scan_suggestions
  rw [List.length_take]
  exact min_le_left _ _

lemma dom_scan_suggestions_nodup (elems : List SElem) :
    (dom_scan_suggestions elems).Nodup := by
  unfold dom_scan_suggestions
  exact List.Nodup.sublist (List.take_sublist _ _) (foldl_scan_nodup elems [] List.nodup_nil)

/-- C4 (amended): `parse_suggestions` returns at most 10 entries on
every path; the DOM-scan fallback path de-duplicates (its result has no
duplicate entries, collected in first-encounter order); and the JSON
input `["q", ["qa","qb","qc"]]` yields `["qa","qb","qc"]`. The
de-duplication part of the frozen claim does not hold on the JSON-array
path, which keeps duplicates (see the counterexample). -/
theorem parse_suggestions_spec :
    (∀ (j : Option JVal) (elems : List SElem), (parse_suggestions j elems).length ≤ 10)
    ∧ (∀ elems : List SElem, (dom_scan_suggestions elems).Nodup)
    ∧ parse_suggestions
        (some (JVal.jarr
          [JVal.jstr "q", JVal.jarr [JVal.jstr "qa", JVal.jstr "qb", JVal.jstr "qc"]]))
        [] = ["qa", "qb", "qc"] := by
  refine ⟨?_, dom_scan_suggestions_nodup, by decide⟩
  intro j elems
  unfold parse_suggestions
  split
  · split
    · rw [List.length_take]; exact min_le_left _ _
    · exact dom_scan_suggestions_length elems
  · exact dom_scan_suggestions_length elems

/-- Counterexample for C4 as frozen: the JSON path does not
de-duplicate — the JSON input `["q", ["qa","qa"]]` yields the duplicate
list `["qa","qa"]`. -/
theorem parse_suggestions_json_dup_counterexample :
    parse_suggestions
      (some (JVal.jarr [JVal.jstr "q", JVal.jarr [JVal.jstr "qa", JVal.jstr "qa"]])) []
      = ["qa", "qa"]
    ∧ ¬ (parse_suggestions
      (some (JVal.jarr [JVal.jstr "q", JVal.jarr [JVal.jstr "qa", JVal.jstr "qa"]]))
      []).Nodup := by
  constructor
  · decide
  · decide

/-- C6 (confirmed): the transport maps each failure outcome to exactly
one typed error — HTTP 429 to the rate-limit error, every other HTTP
failure status to the HTTP error carrying that code (in particular 500),
`URLError` (connection/DNS/timeout) to the base error with the network
message, and any other unexpected failure to the base error with the
generic message; a success is returned as-is, and no arm retries (the
result is a pure function of the single outcome). -/
theorem make_request_error_mapping :
    (∀ reason, make_request_result (RequestOutcome.httpFailure 429 reason)
       = Except.error (SPError.rateLimitError
           ("Rate limit exceeded: " ++ toString 429 ++ " " ++ reason)))
    ∧ (∀ (code : Nat) (reason : String), code ≠ 429 →
       make_request_result (RequestOutcome.httpFailure code reason)
         = Except.error (SPError.httpError code
             ("HTTP error: " ++ toString code ++ " " ++ reason)))
    ∧ (∀ reason, make_request_result (RequestOutcome.urlFailure reason)
       = Except.error (SPError.startpageError ("Network error: " ++ reason)))
    ∧ (∀ msg, make_request_result (RequestOutcome.unexpectedFailure msg)
       = Except.error (SPError.startpageError
           ("Request failed due to an unexpected error: " ++ msg)))
    ∧ (∀ body, make_request_result (RequestOutcome.success body) = Except.ok body) := by
  refine ⟨fun reason => rfl, ?_, fun reason => rfl, fun msg => rfl, fun body => rfl⟩
  intro code reason h
  simp only [make_request_result]
  rw [if_neg h]

/-- Witness for C6: an HTTP 500 failure surfaces the HTTP error kind
with code 500. -/
theorem make_request_error_mapping_witness :
    make_request_result (RequestOutcome.httpFailure 500 "Internal Server Error")
      = Except.error (SPError.httpError 500
          ("HTTP error: " ++ toString 500 ++ " " ++ "Internal Server Error")) :=
  make_request_error_mapping.2.1 500 "Internal Server Error" (by decide)

/-- C7 (confirmed): `parse_search_results` fails with a ParseError on
empty HTML, for every dispatched parser and category; and for every
category outside the five known ones it fails with a ParseError whose
message wraps only the cause's type name and description — the message
is a function of the category alone, so no page content can appear in
it, for every non-empty HTML input. -/
theorem parse_search_results_error_cases :
    (∀ (inner : String → String → Except PyExc ResultPage) (search_type : String),
       parse_search_results inner "" search_type
         = Except.error (SPError.parseError "Cannot parse empty HTML content."))
    ∧ (∀ (inner : String → String → Except PyExc ResultPage) (html search_type : String),
       html ≠ "" → search_type ∉ KNOWN_SEARCH_TYPES →
       parse_search_results inner html search_type
         = Except.error (SPError.parseError
             ("Failed to parse \x27" ++ search_type ++ "\x27 results due to "
               ++ "StartpageParseError: Unknown search type for parsing: " ++ search_type))) := by
  constructor
  · intro inner st; rfl
  · intro inner html st hh hst
    unfold parse_search_results
    rw [if_neg hh, if_neg hst]

/-- Witness for C7: the spec's own example — non-empty HTML with the
unknown category `"bogus"` fails with the wrapped ParseError. -/
theorem parse_search_results_error_cases_witness :
    parse_search_results (fun _ _ => Except.ok ⟨[], 0, false⟩) "<html/>" "bogus"
      = Except.error (SPError.parseError
          ("Failed to parse \x27" ++ "bogus" ++ "\x27 results due to "
            ++ "StartpageParseError: Unknown search type for parsing: " ++ "bogus")) :=
  parse_search_results_error_cases.2 _ "<html/>" "bogus" (by decide) (by decide)

/-- C8 (confirmed): when an instant-answer text and a knowledge panel
with a non-empty description are both present and one text is a
substring of the other, exactly one is suppressed — the instant answer
when the panel has a non-empty title, otherwise the panel. -/
theorem instant_answer_dedupe_spec :
    ∀ (a : String) (p : KnowledgePanel), a ≠ "" → p.description ≠ "" →
      (strIn a p.description || strIn p.description a) = true →
      ((p.title ≠ "" → instant_answer_dedupe (some a) (some p) = (none, some p))
       ∧ (p.title = "" → instant_answer_dedupe (some a) (some p) = (some a, none))) := by
  intro a p ha hd hsub
  constructor <;> intro ht <;> simp [instant_answer_dedupe, ha, hd, hsub, ht]

/-- Witness for C8: a contained instant answer against a titled panel
(panel kept) and against an untitled panel (answer kept). -/
theorem instant_answer_dedupe_spec_witness :
    instant_answer_dedupe (some "Paris is big")
      (some ⟨"Paris", "Paris is big and old", [], "Startpage Knowledge"⟩)
      = (none, some ⟨"Paris", "Paris is big and old", [], "Startpage Knowledge"⟩)
    ∧ instant_answer_dedupe (some "Paris is big")
      (some ⟨"", "Paris is big and old", [], "Startpage Knowledge"⟩)
      = (some "Paris is big", none) :=
  ⟨(instant_answer_dedupe_spec "Paris is big"
      ⟨"Paris", "Paris is big and old", [], "Startpage Knowledge"⟩
      (by decide) (by decide) (by decide)).1 (by decide),
   (instant_answer_dedupe_spec "Paris is big"
      ⟨"", "Paris is big and old", [], "Startpage Knowledge"⟩
      (by decide) (by decide) (by decide)).2 (by decide)⟩
